import Mathlib

/-!
# Verification of the dropme-backend ride-dispatch core

Shallow embedding of the socket handlers and HTTP routes of the
dropme-backend repository (src/index.js, src/rides.js, src/test.js,
src/unnamed/part_001), together with proofs settling the specification
claims about them.

Conventions of the embedding:
* Supabase tables are modelled as Lean data: `user_locations` as a list of
  rows, `drivers` as a keyed store `String → Option String`
  (primary key `id`, column `status`), `ride_requests` as a list of rows.
* JavaScript truthiness on the inputs handlers destructure is modelled by
  `truthyS` / `truthyN` (missing = `none`, falsy = `""` / `0`).
* Timestamps are integers (milliseconds since epoch); `Date.now()` is an
  explicit `now` parameter.
* A Supabase `update ... eq` with no `.single()` succeeds regardless of how
  many rows matched; `.single()` fails unless exactly one row matched;
  `.maybeSingle()` fails only on more than one row.
* The PostGIS `st_distance` call is an opaque distance function passed as a
  parameter, since it is computed inside the data store.
-/

namespace DropMe

/-- JavaScript truthiness for an optional string field (`!x` is true for a
missing field and for the empty string). -/
def truthyS : Option String → Bool
  | none => false
  | some s => s ≠ ""

/-- JavaScript truthiness for an optional numeric field (`!x` is true for a
missing field and for `0`). -/
def truthyN : Option Int → Bool
  | none => false
  | some n => n ≠ 0

/-! ## GeoIndex: the `user_locations` table -/

/-- One row of the `user_locations` table: latest position of a user.
`src/index.js` (first variant) calls the role column `userType`,
`src/test.js` calls it `role`; both hold `"driver"` or `"rider"` for rows
written by the handlers. `updatedAt` is epoch milliseconds. -/
structure UserLoc where
  userId : String
  lat : Int
  lng : Int
  role : String
  updatedAt : Int
  deriving Repr, DecidableEq

/-- Supabase `upsert` on `user_locations` with `onConflict: 'user_id'`:
replaces the row with the same `user_id`, otherwise appends. -/
def upsertLoc (db : List UserLoc) (row : UserLoc) : List UserLoc :=
  if db.any (fun r => r.userId = row.userId) then
    db.map (fun r => if r.userId = row.userId then row else r)
  else
    db ++ [row]

/-- The driver-selection query of the `requestNearbyDrivers` handler at
src/index.js lines 109-116:
`.eq('userType','driver').not('user_id','eq',riderId)
 .lt('updated_at', Date.now() - 5*60*1000) ... .lte('distance', 10000)`.
Note the `.lt` on `updated_at`: it keeps rows strictly OLDER than
five minutes, although the inline comment reads
"Only recent locations (last 5 mins)". `dist` stands for the store-side
`st_distance(location, riderPoint)`. -/
def nearbyQueryIndexJs (db : List UserLoc) (riderId : String) (now : Int)
    (dist : Int → Int → Int) : List UserLoc :=
  db.filter (fun r =>
    r.role = "driver" ∧ r.userId ≠ riderId ∧
    r.updatedAt < now - 5 * 60 * 1000 ∧ dist r.lat r.lng ≤ 10000)

/-- The driver-selection query of the `requestNearbyDrivers` handler at
src/test.js lines 120-127, identical except that the staleness filter is
`.gt('updated_at', Date.now() - 5*60*1000)` (keeps rows strictly newer
than five minutes). -/
def nearbyQueryTestJs (db : List UserLoc) (riderId : String) (now : Int)
    (dist : Int → Int → Int) : List UserLoc :=
  db.filter (fun r =>
    r.role = "driver" ∧ r.userId ≠ riderId ∧
    r.updatedAt > now - 5 * 60 * 1000 ∧ dist r.lat r.lng ≤ 10000)

/-- The whole `requestNearbyDrivers` handler of src/index.js lines 96-124:
first upserts the rider's own position (role `'rider'`, `updated_at` now),
then runs the driver query and emits its rows as `nearbyDrivers`. -/
def requestNearbyDrivers (db : List UserLoc) (riderId : String)
    (lat lng : Int) (now : Int) (dist : Int → Int → Int) : List UserLoc :=
  nearbyQueryIndexJs
    (upsertLoc db { userId := riderId, lat := lat, lng := lng,
                    role := "rider", updatedAt := now })
    riderId now dist

/-- Same handler shape with the src/test.js query (`.gt` staleness filter). -/
def requestNearbyDriversTest (db : List UserLoc) (riderId : String)
    (lat lng : Int) (now : Int) (dist : Int → Int → Int) : List UserLoc :=
  nearbyQueryTestJs
    (upsertLoc db { userId := riderId, lat := lat, lng := lng,
                    role := "rider", updatedAt := now })
    riderId now dist

/-! ## updateLocation handler (src/index.js lines 392-413, src/test.js
lines 61-94, src/unnamed/part_001 lines 136-157) -/

/-- The `updateLocation` handler. Destructures `{ userId, lat, lng, role }`;
rejects when `!userId || isNaN(lat) || isNaN(lng)` (a missing or
non-numeric coordinate is `NaN`, modelled as `none`); otherwise coerces the
role to `'rider'` unless it is exactly `'driver'` or `'rider'`, and upserts
the row. The role never participates in the rejection test. -/
def updateLocation (db : List UserLoc) (userId : Option String)
    (lat lng : Option Int) (role : Option String) (now : Int) :
    Except String (List UserLoc) :=
  if ¬ truthyS userId ∨ lat.isNone ∨ lng.isNone then
    .error "Invalid updateLocation data"
  else
    let validRole :=
      if role = some "driver" ∨ role = some "rider" then role.getD "rider"
      else "rider"
    .ok (upsertLoc db { userId := userId.getD "", lat := lat.getD 0,
                        lng := lng.getD 0, role := validRole,
                        updatedAt := now })

/-! ## PresenceTracker: the `drivers` table
(src/index.js lines 542-587, src/unnamed/part_001 lines 418-463) -/

/-- The `drivers` table keyed by `id`, value the `status` column. -/
def DriversDb := String → Option String

/-- `updateDriverStatus` handler: `upsert({ id: driverId, status },
{ onConflict: 'id' })` — creates or replaces the row for `driverId`. -/
def updateDriverStatus (db : DriversDb) (driverId status : String) :
    DriversDb :=
  fun x => if x = driverId then some status else db x

/-- `getDriverStatus` handler: selects `status` with `.single()`. A fetch
failure or an absent row takes the catch path and emits `'offline'`; on a
fetched row the emitted status is `driverData?.status || 'offline'`, so a
falsy stored status also yields `'offline'`. `fetchFails` models a
backing-store failure. -/
def getDriverStatus (db : DriversDb) (fetchFails : Bool)
    (driverId : String) : String :=
  if fetchFails then "offline"
  else
    match db driverId with
    | none => "offline"
    | some s => if s = "" then "offline" else s

/-! ## RideRegistry: the `ride_requests` and `rides` tables

Monetary amounts are integers (XAF, as in the source's price list) and
coordinates are integers in units of 10⁻⁵ degrees, so that every numeric
literal appearing in the handlers is exact. Only the columns some claim
depends on are modelled; the remaining columns (passenger, rating, eta,
duration, payment_method, ...) are copied verbatim by the handlers and
never read back. -/

/-- A pickup/dropoff location object `{ lat, lng, address/location }`. -/
structure Loc where
  lat : Int
  lng : Int
  address : String
  deriving Repr, DecidableEq

/-- One row of the `ride_requests` table. `ridetype` is the column the
insert at src/unnamed/part_001 line 251 writes (the `tripUpdate` handler
reads it back under the name `ride_type`); it is `none` when the inserting
handler received no ride type. `cancellationReason` is the
`cancellation_reason` column written by `cancelRide`. -/
structure RideReqRow where
  id : String
  riderId : String
  driverId : Option String
  status : String
  fare : Int
  ridetype : Option String
  pickup : Loc
  dropoff : Loc
  cancellationReason : Option String
  deriving Repr, DecidableEq

/-- One row of the `vehicles` table (columns read by `tripUpdate`):
`driver_id`, `ride_type`, `status`. -/
structure VehicleRow where
  driverId : String
  rideType : String
  status : String
  deriving Repr, DecidableEq

/-- The fields of the `newRideRequest` payload that the validation and the
inserted row depend on; a missing field is `none`. -/
structure RideRequestInput where
  riderId : Option String
  rideType : Option String
  distance : Option Int
  cost : Option Int
  pickup : Option Loc
  dropoff : Option Loc
  deriving Repr, DecidableEq

/-- The `newRideRequest` handler of src/unnamed/part_001 lines 206-274.
Checks, in source order: truthiness of riderId, rideType, distance, cost,
pickup, dropoff (`!x` also fires on `0` and `""`); then `cost <= 0`;
then `distance <= 0` (the `typeof ... !== 'object'` checks hold for every
present `Loc`). On success inserts a row with `status: 'pending'` and
`driver_id: null`. `newId` stands for the generated `uuidv4()`. -/
def newRideRequest (newId : String) (inp : RideRequestInput) :
    Except String RideReqRow :=
  if ¬ (truthyS inp.riderId ∧ truthyS inp.rideType ∧ truthyN inp.distance ∧
        truthyN inp.cost ∧ inp.pickup.isSome ∧ inp.dropoff.isSome) then
    .error "Missing required fields: riderId, rideType, distance, cost, pickup, dropoff"
  else if inp.cost.getD 0 ≤ 0 then
    .error "Invalid cost: must be a positive number"
  else if inp.distance.getD 0 ≤ 0 then
    .error "Invalid distance: must be a positive number"
  else
    .ok { id := newId, riderId := inp.riderId.getD "",
          driverId := none, status := "pending",
          fare := inp.cost.getD 0, ridetype := inp.rideType,
          pickup := inp.pickup.getD ⟨0, 0, ""⟩,
          dropoff := inp.dropoff.getD ⟨0, 0, ""⟩,
          cancellationReason := none }

/-- The `newRideRequest` handler of src/index.js lines 447-479 (the second
monolith variant). It performs no validation: every missing field is
replaced by a default (`pickup || { lat: 37.78825, lng: -122.4324,
location: "Downtown" }`, `fare || 25`, ...) and the row is inserted with
`status: 'pending'` unconditionally. -/
def newRideRequestLegacy (newId : String) (inp : RideRequestInput) :
    RideReqRow :=
  { id := newId, riderId := inp.riderId.getD "",
    driverId := none, status := "pending",
    fare := if truthyN inp.cost then inp.cost.getD 0 else 25,
    ridetype := inp.rideType,
    pickup := inp.pickup.getD ⟨3778825, -12243240, "Downtown"⟩,
    dropoff := inp.dropoff.getD ⟨3762130, -12237900, "Airport"⟩,
    cancellationReason := none }

/-- Outcome a ride_requests mutation reports back to the socket. -/
inductive ReqOutcome
  | ok (row : RideReqRow)
  | err (msg : String)
  deriving Repr, DecidableEq

/-- The `acceptRide` handler of src/unnamed/part_001 lines 276-326, as a
sequential operation (its interleaving semantics is `acceptStep` below).
Fetch `id = requestId ∧ status = 'pending'` with `.maybeSingle()` (null →
"Ride not available or already processed", more than one row → fetch
error → "Failed to accept ride"); then the decisive conditional update
`{ driver_id, status: 'accepted' } WHERE id = requestId AND
status = 'pending'`. -/
def acceptRideSeq (db : List RideReqRow) (driverId requestId : String) :
    List RideReqRow × ReqOutcome :=
  match db.filter (fun r => r.id = requestId ∧ r.status = "pending") with
  | [r] =>
      (db.map (fun x =>
          if x.id = requestId ∧ x.status = "pending" then
            { x with status := "accepted", driverId := some driverId }
          else x),
       .ok { r with status := "accepted", driverId := some driverId })
  | [] => (db, .err "Ride not available or already processed")
  | _ => (db, .err "Failed to accept ride")

/-- The `confirmRide` handler of src/unnamed/part_001 lines 328-377.
Fetch `id = requestId ∧ status = 'accepted' ∧ driver_id = driverId` with
`.maybeSingle()`; a null result — whether the driver mismatches or the
status is wrong — yields the single generic error
"Ride not available or not assigned". On a match, update
`{ status: 'confirmed' } WHERE id = requestId AND status = 'accepted'`.
No row is inserted into the `rides` table. -/
def confirmRide (db : List RideReqRow) (driverId requestId : String) :
    List RideReqRow × ReqOutcome :=
  match db.filter (fun r =>
      r.id = requestId ∧ r.status = "accepted" ∧ r.driverId = some driverId) with
  | [r] =>
      (db.map (fun x =>
          if x.id = requestId ∧ x.status = "accepted" then
            { x with status := "confirmed" }
          else x),
       .ok { r with status := "confirmed" })
  | [] => (db, .err "Ride not available or not assigned")
  | _ => (db, .err "Failed to confirm ride")

/-- The `declineRide` handler of src/unnamed/part_001 lines 379-404.
After the truthiness check on `driverId`/`requestId`, the update
`{ status: 'declined' } WHERE id = requestId` carries no status guard:
it applies whatever the current status is, and a Supabase update without
`.single()` succeeds even when zero rows match. -/
def declineRide (db : List RideReqRow) (driverId requestId : Option String) :
    Except String (List RideReqRow) :=
  if ¬ truthyS driverId ∨ ¬ truthyS requestId then
    .error "Invalid declineRide data: driverId and requestId required"
  else
    .ok (db.map (fun r =>
      if r.id = requestId.getD "" then { r with status := "declined" } else r))

/-- The `cancelRide` handler of src/unnamed/part_001 lines 405-416:
`{ status: 'canceled', cancellation_reason: reason } WHERE id = requestId`,
with no input validation and no status guard. -/
def cancelRide (db : List RideReqRow) (requestId : String)
    (reason : Option String) : List RideReqRow :=
  db.map (fun r =>
    if r.id = requestId then
      { r with status := "canceled", cancellationReason := reason }
    else r)

/-- The `tripUpdate` handler of src/unnamed/part_001 lines 467-528.
Fetches the pending request of `rider_id` with `.single()`, fetches the
driver's active vehicle with `.single()`, compares the vehicle's
`ride_type` against the request's, then updates `{ status, driver_id }
WHERE rider_id = riderId AND status = 'pending'`, where `status` is
whatever string the client sent. -/
def tripUpdate (db : List RideReqRow) (vehicles : List VehicleRow)
    (riderId driverId status : String) : List RideReqRow × ReqOutcome :=
  match db.filter (fun r => r.riderId = riderId ∧ r.status = "pending") with
  | [ride] =>
      match vehicles.filter (fun v =>
          v.driverId = driverId ∧ v.status = "active") with
      | [v] =>
          if ride.ridetype ≠ some v.rideType then
            (db, .err "Vehicle ride type does not match rider request")
          else
            (db.map (fun r =>
                if r.riderId = riderId ∧ r.status = "pending" then
                  { r with status := status, driverId := some driverId }
                else r),
             .ok { ride with status := status, driverId := some driverId })
      | _ => (db, .err "No active vehicle found for driver or vehicle error")
  | _ => (db, .err "Database error")

/-- One row of the `rides` table (columns the cancel handler touches). -/
structure RideRow where
  id : String
  riderId : String
  driverId : Option String
  status : String
  deriving Repr, DecidableEq

/-- The `cancelRide` handler of src/index.js lines 1199-1239, which acts on
the `rides` table. It first fetches `id = rideId ∧ rider_id = userId ∧
status IN ('requested','accepted','in-progress')` with `.single()`; if that
does not match exactly one row it reports "Ride not found or not
cancellable" and changes nothing; otherwise it sets
`{ status: 'canceled' } WHERE id = rideId`. -/
def cancelRideIndexJs (db : List RideRow) (rideId userId : Option String) :
    List RideRow × Except String String :=
  if ¬ truthyS rideId ∨ ¬ truthyS userId then
    (db, .error "Missing required fields for cancelling ride")
  else
    match db.filter (fun r => r.id = rideId.getD "" ∧
        r.riderId = userId.getD "" ∧
        (r.status = "requested" ∨ r.status = "accepted" ∨
         r.status = "in-progress")) with
    | [_] =>
        (db.map (fun r =>
            if r.id = rideId.getD "" then { r with status := "canceled" }
            else r),
         .ok (rideId.getD ""))
    | _ => (db, .error "Ride not found or not cancellable")

/-! ## Concurrent acceptance

Interleaving semantics for N drivers racing to accept the same pending
RideRequest. The shared state is the request's row (`status`,
`driver_id`); each accepting call is a thread that performs two atomic
data-store operations: the pre-check fetch, and the update. The data store
serializes individual statements, so an execution is an arbitrary
interleaving of these atomic steps, given as the list of thread indices in
the order their next step runs. -/

/-- The shared `ride_requests` row the racing drivers contend for. -/
structure AcceptReq where
  status : String
  driver : Option String
  deriving Repr, DecidableEq

/-- Progress of one accepting thread: before its fetch, between fetch and
update, finished with success, or finished with a conflict error. -/
inductive Phase
  | start
  | fetched
  | doneOk
  | doneConflict
  deriving Repr, DecidableEq

/-- Global state: the contended row plus each thread's phase. -/
structure AcceptSys (n : Nat) where
  req : AcceptReq
  phase : Fin n → Phase

/-- Initial state: the request is pending with no driver, no thread has
run. -/
def acceptInit (n : Nat) : AcceptSys n :=
  { req := { status := "pending", driver := none }, phase := fun _ => .start }

/-- One atomic step of thread `i` running the `acceptRide` handler
(src/unnamed/part_001 lines 276-326). Its fetch passes only if the row is
still `'pending'`; its update is the conditional write `... WHERE id AND
status = 'pending'`, which succeeds (zero rows otherwise, making
`.single()` fail) only if the row is still pending at update time.
`drv i` is thread `i`'s driverId. A finished thread's step is a no-op. -/
def acceptStep {n : Nat} (drv : Fin n → String) (s : AcceptSys n)
    (i : Fin n) : AcceptSys n :=
  if s.phase i = Phase.start then
    if s.req.status = "pending" then
      { s with phase := Function.update s.phase i Phase.fetched }
    else
      { s with phase := Function.update s.phase i Phase.doneConflict }
  else if s.phase i = Phase.fetched then
    if s.req.status = "pending" then
      { req := { status := "accepted", driver := some (drv i) },
        phase := Function.update s.phase i Phase.doneOk }
    else
      { s with phase := Function.update s.phase i Phase.doneConflict }
  else s

/-- Run an interleaving: the schedule `l` lists, in order, which thread
performs its next atomic step. -/
def acceptRun {n : Nat} (drv : Fin n → String) (s : AcceptSys n)
    (l : List (Fin n)) : AcceptSys n :=
  l.foldl (acceptStep drv) s

/-- One atomic step of thread `i` running the `POST /confirm` route of
src/rides.js lines 67-121 on the same contended row. Its fetch requires
`status = 'pending'` like `acceptRide`'s, but its update
(`{ status: 'accepted', driver_id } WHERE id = requestId`, lines 86-89)
carries NO status condition, so it succeeds regardless of what happened
since the fetch, overwriting `driver_id` and materializing a Ride. -/
def confirmRouteStep {n : Nat} (drv : Fin n → String) (s : AcceptSys n)
    (i : Fin n) : AcceptSys n :=
  if s.phase i = Phase.start then
    if s.req.status = "pending" then
      { s with phase := Function.update s.phase i Phase.fetched }
    else
      { s with phase := Function.update s.phase i Phase.doneConflict }
  else if s.phase i = Phase.fetched then
    { req := { status := "accepted", driver := some (drv i) },
      phase := Function.update s.phase i Phase.doneOk }
  else s

/-- Run an interleaving of `POST /confirm` threads. -/
def confirmRouteRun {n : Nat} (drv : Fin n → String) (s : AcceptSys n)
    (l : List (Fin n)) : AcceptSys n :=
  l.foldl (confirmRouteStep drv) s

/-- Invariant preserved by every `acceptRide` step: either the row is still
pending, no driver is recorded and no thread has finished, or the row is
accepted by a unique winning thread whose driverId is the one recorded. -/
def AcceptInv {n : Nat} (drv : Fin n → String) (s : AcceptSys n) : Prop :=
  (s.req.status = "pending" ∧ s.req.driver = none ∧
    ∀ i, s.phase i = Phase.start ∨ s.phase i = Phase.fetched)
  ∨ (s.req.status = "accepted" ∧
     ∃ w, s.phase w = Phase.doneOk ∧ s.req.driver = some (drv w) ∧
       ∀ j, j ≠ w → s.phase j ≠ Phase.doneOk)

/-- The ride_requests mutations of src/unnamed/part_001, as one operation
type (used to state invariants quantified over every handler that can
touch a request row). -/
inductive ReqOp
  | accept (driverId requestId : String)
  | confirm (driverId requestId : String)
  | decline (driverId requestId : Option String)
  | cancel (requestId : String) (reason : Option String)
  | trip (vehicles : List VehicleRow) (riderId driverId status : String)

/-- The effect of one handler invocation on the `ride_requests` table
(the socket reply is dropped; a rejected `declineRide` leaves the table
as it was). -/
def applyOp (db : List RideReqRow) : ReqOp → List RideReqRow
  | .accept d q => (acceptRideSeq db d q).1
  | .confirm d q => (confirmRide db d q).1
  | .decline d q =>
      match declineRide db d q with
      | .ok db' => db'
      | .error _ => db
  | .cancel q reason => cancelRide db q reason
  | .trip vs r d st => (tripUpdate db vs r d st).1

/-! Concrete instances used to evaluate the handlers at specific inputs. -/

/-- A sample `ride_requests` row with the given status and driver. -/
def sampleReq (status : String) (driverId : Option String) : RideReqRow :=
  { id := "r1", riderId := "u1", driverId := driverId, status := status,
    fare := 1500, ridetype := some "standard",
    pickup := { lat := 1, lng := 2, address := "A" },
    dropoff := { lat := 3, lng := 4, address := "B" },
    cancellationReason := none }

/-- A sample `newRideRequest` payload, complete except for the cost. -/
def sampleInput (cost : Option Int) : RideRequestInput :=
  { riderId := some "u1", rideType := some "standard",
    distance := some 1200, cost := cost,
    pickup := some { lat := 1, lng := 2, address := "A" },
    dropoff := some { lat := 3, lng := 4, address := "B" } }

/-- A `newRideRequest` payload carrying only a rider id. -/
def emptyInput : RideRequestInput :=
  { riderId := some "u1", rideType := none, distance := none,
    cost := none, pickup := none, dropoff := none }

/-- A sample `rides` row with the given status. -/
def sampleRide (status : String) : RideRow :=
  { id := "r1", riderId := "u1", driverId := some "d1", status := status }

/-- A sample active vehicle for driver d1 matching the sample requests'
ride type. -/
def sampleVehicle : VehicleRow :=
  { driverId := "d1", rideType := "standard", status := "active" }

theorem acceptInv_init {n : Nat} (drv : Fin n → String) :
    AcceptInv drv (acceptInit n) :=
  Or.inl ⟨rfl, rfl, fun _ => Or.inl rfl⟩

theorem acceptInv_step {n : Nat} (drv : Fin n → String) (s : AcceptSys n)
    (i : Fin n) (h : AcceptInv drv s) : AcceptInv drv (acceptStep drv s i) := by
  rcases h with ⟨hst, hdr, hph⟩ | ⟨hst, w, hw, hdrv, huniq⟩
  · rcases hph i with hpi | hpi
    · rw [acceptStep, if_pos hpi, if_pos hst]
      refine Or.inl ⟨hst, hdr, fun j => ?_⟩
      by_cases hj : j = i
      · subst hj; simp [Function.update_same]
      · simp only [Function.update_noteq hj]; exact hph j
    · have hne : s.phase i ≠ Phase.start := by rw [hpi]; decide
      rw [acceptStep, if_neg hne, if_pos hpi, if_pos hst]
      refine Or.inr ⟨rfl, i, ?_, rfl, fun j hj => ?_⟩
      · simp only [Function.update_same]
      · simp only [Function.update_noteq hj]
        rcases hph j with h' | h' <;> rw [h'] <;> decide
  · have hnp : s.req.status ≠ "pending" := by rw [hst]; decide
    by_cases h1 : s.phase i = Phase.start
    · rw [acceptStep, if_pos h1, if_neg hnp]
      have hiw : i ≠ w := by
        intro e; rw [e, hw] at h1; cases h1
      refine Or.inr ⟨hst, w, ?_, hdrv, fun j hj => ?_⟩
      · simp only [Function.update_noteq (Ne.symm hiw)]; exact hw
      · by_cases hji : j = i
        · subst hji; simp only [Function.update_same]; decide
        · simp only [Function.update_noteq hji]; exact huniq j hj
    · by_cases h2 : s.phase i = Phase.fetched
      · rw [acceptStep, if_neg h1, if_pos h2, if_neg hnp]
        have hiw : i ≠ w := by
          intro e; rw [e, hw] at h2; cases h2
        refine Or.inr ⟨hst, w, ?_, hdrv, fun j hj => ?_⟩
        · simp only [Function.update_noteq (Ne.symm hiw)]; exact hw
        · by_cases hji : j = i
          · subst hji; simp only [Function.update_same]; decide
          · simp only [Function.update_noteq hji]; exact huniq j hj
      · rw [acceptStep, if_neg h1, if_neg h2]
        exact Or.inr ⟨hst, w, hw, hdrv, huniq⟩

theorem acceptInv_run {n : Nat} (drv : Fin n → String) (l : List (Fin n))
    (s : AcceptSys n) (h : AcceptInv drv s) :
    AcceptInv drv (acceptRun drv s l) := by
  induction l generalizing s with
  | nil => exact h
  | cons a t ih => exact ih (acceptStep drv s a) (acceptInv_step drv s a h)

/-- The row handed to `upsertLoc` is present in the resulting table. -/
theorem mem_upsertLoc (db : List UserLoc) (row : UserLoc) :
    row ∈ upsertLoc db row := by
  rw [upsertLoc]
  split
  · rename_i h
    rw [List.any_eq_true] at h
    obtain ⟨r, hr, hru⟩ := h
    rw [List.mem_map]
    refine ⟨r, hr, ?_⟩
    rw [decide_eq_true_eq] at hru
    rw [if_pos hru]
  · exact List.mem_append_right _ (List.mem_singleton.mpr rfl)

/-! ## Claim theorems -/

/-- C1 (amended): for every interleaving of N ≥ 1 `acceptRide` calls on the
same pending RideRequest in which every call runs to completion, exactly
one call succeeds — there is a winner `w` with every other thread finishing
in the conflict error — and the request ends `accepted` with the winner's
driverId recorded, because the decisive update is conditioned on
`status = 'pending'`. (The claim as frozen also covers the `POST /confirm`
route, whose update carries no such condition; see the counterexample.) -/
theorem acceptRide_exactly_one_winner {n : Nat} (drv : Fin n → String)
    (l : List (Fin n)) (hn : 0 < n)
    (hdone : ∀ i, (acceptRun drv (acceptInit n) l).phase i = Phase.doneOk ∨
        (acceptRun drv (acceptInit n) l).phase i = Phase.doneConflict) :
    ∃ w, (acceptRun drv (acceptInit n) l).phase w = Phase.doneOk ∧
      (∀ j, j ≠ w →
        (acceptRun drv (acceptInit n) l).phase j = Phase.doneConflict) ∧
      (acceptRun drv (acceptInit n) l).req.status = "accepted" ∧
      (acceptRun drv (acceptInit n) l).req.driver = some (drv w) := by
  have hinv := acceptInv_run drv l (acceptInit n) (acceptInv_init drv)
  rcases hinv with ⟨_, _, hph⟩ | ⟨hst, w, hw, hdrv, huniq⟩
  · exfalso
    rcases hdone ⟨0, hn⟩ with h | h <;> rcases hph ⟨0, hn⟩ with h' | h' <;>
      rw [h] at h' <;> cases h'
  · refine ⟨w, hw, fun j hj => ?_, hst, hdrv⟩
    rcases hdone j with h | h
    · exact absurd h (huniq j hj)
    · exact h

/-- Witness for C1: two drivers `d1`, `d2` race under the schedule
fetch₁, update₁, fetch₂, update₂; both hypotheses hold and driver 1 wins
while driver 2 gets the conflict. -/
theorem acceptRide_exactly_one_winner_witness :
    (0 < 2 ∧ ∀ i : Fin 2,
      (acceptRun (fun i => if i = 0 then "d1" else "d2") (acceptInit 2)
        [0, 0, 1, 1]).phase i = Phase.doneOk ∨
      (acceptRun (fun i => if i = 0 then "d1" else "d2") (acceptInit 2)
        [0, 0, 1, 1]).phase i = Phase.doneConflict) ∧
    ∃ w, (acceptRun (fun i => if i = 0 then "d1" else "d2") (acceptInit 2)
        [0, 0, 1, 1]).phase w = Phase.doneOk ∧
      (∀ j, j ≠ w →
        (acceptRun (fun i => if i = 0 then "d1" else "d2") (acceptInit 2)
          [0, 0, 1, 1]).phase j = Phase.doneConflict) ∧
      (acceptRun (fun i => if i = 0 then "d1" else "d2") (acceptInit 2)
        [0, 0, 1, 1]).req.status = "accepted" ∧
      (acceptRun (fun i => if i = 0 then "d1" else "d2") (acceptInit 2)
        [0, 0, 1, 1]).req.driver =
        some ((fun i : Fin 2 => if i = 0 then "d1" else "d2") w) :=
  ⟨⟨by decide, by decide⟩,
   acceptRide_exactly_one_winner (fun i => if i = 0 then "d1" else "d2")
     [0, 0, 1, 1] (by decide) (by decide)⟩

/-- C1 counterexample: under the `POST /confirm` route of src/rides.js —
fetch-then-update with no status condition on the update — the interleaving
fetch₁, fetch₂, update₁, update₂ from the same pending request lets BOTH
drivers succeed (two Ride records are materialized), and the recorded
driver is silently overwritten from d1 to d2, refuting "exactly one call
succeeds" for concurrent driver accept operations through this route. -/
theorem confirmRoute_double_acceptance :
    (confirmRouteRun (fun i => if i = 0 then "d1" else "d2") (acceptInit 2)
      [0, 1, 0, 1]).phase 0 = Phase.doneOk ∧
    (confirmRouteRun (fun i => if i = 0 then "d1" else "d2") (acceptInit 2)
      [0, 1, 0, 1]).phase 1 = Phase.doneOk ∧
    (confirmRouteRun (fun i => if i = 0 then "d1" else "d2") (acceptInit 2)
      [0, 1, 0, 1]).req.driver = some "d2" := by decide

/-- C2 (code bug): the `requestNearbyDrivers` handler of src/index.js
lines 96-124 filters with `.lt('updated_at', Date.now() - 5*60*1000)`
although its own comment reads "Only recent locations (last 5 mins)"
(and the src/test.js variant of the same handler uses `.gt`): it keeps
exactly the positions OLDER than five minutes. At query time
`now = 600000` ms, the driver `drv1` whose position is 10 minutes old
(updatedAt 0) is returned, while the fresh driver `drv2` (updatedAt
540000, one minute old) is excluded. -/
theorem requestNearbyDrivers_returns_stale :
    requestNearbyDrivers
      [{ userId := "drv1", lat := 100, lng := 200, role := "driver",
         updatedAt := 0 },
       { userId := "drv2", lat := 100, lng := 200, role := "driver",
         updatedAt := 540000 }]
      "rider1" 100 200 600000 (fun _ _ => 0) =
      [{ userId := "drv1", lat := 100, lng := 200, role := "driver",
         updatedAt := 0 }] := by decide

/-- C2 contrast: the src/test.js variant of the handler, whose only
difference is `.gt` in place of `.lt`, never returns a position older than
five minutes. -/
theorem nearbyQueryTestJs_excludes_stale :
    ∀ (db : List UserLoc) (riderId : String) (now : Int)
      (dist : Int → Int → Int) (r : UserLoc),
      r ∈ nearbyQueryTestJs db riderId now dist →
      now - r.updatedAt < 5 * 60 * 1000 := by
  intro db riderId now dist r hr
  have h := (List.mem_filter.mp hr).2
  simp only [decide_eq_true_eq] at h
  omega

/-- C7 (confirmed): both variants of the `requestNearbyDrivers` handler
apply `.not('user_id', 'eq', riderId)`, so the requesting rider — whose
own position the handler upserts first — never appears among the returned
nearby drivers. -/
theorem requestNearbyDrivers_excludes_self :
    ∀ (db : List UserLoc) (riderId : String) (lat lng now : Int)
      (dist : Int → Int → Int),
      ((requestNearbyDrivers db riderId lat lng now dist).all
        (fun r => r.userId ≠ riderId)) = true ∧
      ((requestNearbyDriversTest db riderId lat lng now dist).all
        (fun r => r.userId ≠ riderId)) = true := by
  intro db riderId lat lng now dist
  constructor <;>
  · rw [List.all_eq_true]
    intro r hr
    have h := (List.mem_filter.mp hr).2
    simp only [decide_eq_true_eq] at h
    simp [h.2.1]

/-- C8 (confirmed): `getDriverStatus` returns the stored status of the
driver's row (statuses the system writes — online/offline/busy — are
non-empty strings), and returns `'offline'` whenever no row was ever
stored for that driverId or the backing-store fetch fails. -/
theorem getDriverStatus_default_offline :
    (∀ (db : DriversDb) (d s : String), db d = some s → s ≠ "" →
        getDriverStatus db false d = s) ∧
    (∀ (db : DriversDb) (fetchFails : Bool) (d : String), db d = none →
        getDriverStatus db fetchFails d = "offline") ∧
    (∀ (db : DriversDb) (d : String), getDriverStatus db true d = "offline") := by
  refine ⟨fun db d s hrow hne => ?_, fun db ff d hrow => ?_, fun db d => rfl⟩
  · simp [getDriverStatus, hrow, hne]
  · cases ff <;> simp [getDriverStatus, hrow]

/-- Witness for C8 at a one-row store holding `d1 ↦ busy`. -/
theorem getDriverStatus_default_offline_witness :
    getDriverStatus (fun x => if x = "d1" then some "busy" else none)
      false "d1" = "busy" ∧
    getDriverStatus (fun x => if x = "d1" then some "busy" else none)
      false "d2" = "offline" ∧
    getDriverStatus (fun x => if x = "d1" then some "busy" else none)
      true "d1" = "offline" :=
  ⟨getDriverStatus_default_offline.1 _ "d1" "busy" (by decide) (by decide),
   getDriverStatus_default_offline.2.1 _ false "d2" (by decide),
   getDriverStatus_default_offline.2.2 _ "d1"⟩

/-- C10 (confirmed): for a non-empty status string, `getDriverStatus`
right after `updateDriverStatus` returns exactly that status; the upsert
(`onConflict: 'id'`) creates the row when absent, so this holds for any
prior state of the `drivers` table. -/
theorem updateDriverStatus_roundtrip :
    ∀ (db : DriversDb) (d s : String), s ≠ "" →
      getDriverStatus (updateDriverStatus db d s) false d = s := by
  intro db d s hs
  simp [getDriverStatus, updateDriverStatus, hs]

/-- Witness for C10 on a driver never seen before (empty store). -/
theorem updateDriverStatus_roundtrip_witness :
    ("online" : String) ≠ "" ∧
    getDriverStatus (updateDriverStatus (fun _ => none) "dX" "online")
      false "dX" = "online" :=
  ⟨by decide, updateDriverStatus_roundtrip (fun _ => none) "dX" "online"
    (by decide)⟩

/-- C9 (confirmed): `updateLocation` rejects exactly when userId is falsy
or a coordinate is `NaN` — never on account of the role — and on success
the upserted row's role is `'driver'` or `'rider'`: the input role itself
when it is one of the two, and `'rider'` for any other value, a missing
role included. -/
theorem updateLocation_role_coerced :
    ∀ (db : List UserLoc) (userId : Option String) (lat lng : Option Int)
      (role : Option String) (now : Int),
      ((updateLocation db userId lat lng role now).isOk ↔
        (truthyS userId = true ∧ lat.isSome = true ∧ lng.isSome = true)) ∧
      (∀ db', updateLocation db userId lat lng role now = .ok db' →
        ∃ row ∈ db', row.userId = userId.getD "" ∧ row.updatedAt = now ∧
          (row.role = "driver" ∨ row.role = "rider") ∧
          ((role = some "driver" ∨ role = some "rider") →
            some row.role = role) ∧
          (¬ (role = some "driver" ∨ role = some "rider") →
            row.role = "rider")) := by
  intro db userId lat lng role now
  constructor
  · by_cases hc : ¬ truthyS userId ∨ lat.isNone ∨ lng.isNone
    · rw [updateLocation, if_pos hc]
      simp only [Except.isOk, Except.toBool]
      constructor
      · intro h; cases h
      · intro ⟨h1, h2, h3⟩
        rcases hc with h | h | h
        · exact absurd h1 h
        · rw [Option.isNone_iff_eq_none] at h; rw [h] at h2; cases h2
        · rw [Option.isNone_iff_eq_none] at h; rw [h] at h3; cases h3
    · rw [updateLocation, if_neg hc]
      push_neg at hc
      obtain ⟨h1, h2, h3⟩ := hc
      simp only [Except.isOk, Except.toBool, true_iff]
      refine ⟨by simpa using h1, ?_, ?_⟩
      · cases lat
        · cases h2 rfl
        · rfl
      · cases lng
        · cases h3 rfl
        · rfl
  · intro db' h
    rw [updateLocation] at h
    split at h
    · cases h
    · rw [Except.ok.injEq] at h
      subst h
      refine ⟨_, mem_upsertLoc db _, rfl, rfl, ?_, ?_, ?_⟩
      · by_cases hr : role = some "driver" ∨ role = some "rider"
        · rw [if_pos hr]
          rcases hr with hr | hr <;> rw [hr] <;> simp
        · rw [if_neg hr]; exact Or.inr rfl
      · intro hr
        rw [if_pos hr]
        rcases hr with hr | hr <;> rw [hr] <;> rfl
      · intro hr
        rw [if_neg hr]

/-- Witness for C9: a row with role `'alien'` is stored as `'rider'`, and
the same input is accepted no matter the role. -/
theorem updateLocation_role_coerced_witness :
    ((updateLocation [] (some "u9") (some 1) (some 2) (some "alien")
        0).isOk ↔
      (truthyS (some "u9") = true ∧ (some (1 : Int)).isSome = true ∧
        (some (2 : Int)).isSome = true)) ∧
    ∃ row ∈ [{ userId := "u9", lat := 1, lng := 2, role := "rider",
               updatedAt := 0 : UserLoc }],
      row.userId = (some "u9").getD "" ∧ row.updatedAt = 0 ∧
      (row.role = "driver" ∨ row.role = "rider") ∧
      ((some "alien" = some "driver" ∨ some "alien" = some "rider") →
        some row.role = some "alien") ∧
      (¬ (some "alien" = some "driver" ∨ some "alien" = some "rider") →
        row.role = "rider") :=
  ⟨(updateLocation_role_coerced [] (some "u9") (some 1) (some 2)
      (some "alien") 0).1,
   (updateLocation_role_coerced [] (some "u9") (some 1) (some 2)
      (some "alien") 0).2 _ rfl⟩

/-- C4 (amended): the validating `newRideRequest` handler of
src/unnamed/part_001 creates only requests with initial status `pending`
(and no driver), and creates nothing — returning a validation error —
whenever pickup, dropoff or cost is missing, cost ≤ 0, or distance ≤ 0.
(The claim as frozen also covers the src/index.js variant, which
substitutes defaults instead of validating; see the counterexample.) -/
theorem newRideRequest_validates :
    (∀ (newId : String) (inp : RideRequestInput) (row : RideReqRow),
        newRideRequest newId inp = .ok row →
        row.status = "pending" ∧ row.driverId = none) ∧
    (∀ (newId : String) (inp : RideRequestInput),
        inp.pickup = none ∨ inp.dropoff = none ∨ inp.cost = none ∨
          inp.cost.getD 0 ≤ 0 ∨ inp.distance.getD 0 ≤ 0 →
        ∃ msg, newRideRequest newId inp = .error msg) := by
  constructor
  · intro newId inp row h
    rw [newRideRequest] at h
    split at h
    · cases h
    · split at h
      · cases h
      · split at h
        · cases h
        · rw [Except.ok.injEq] at h
          subst h
          exact ⟨rfl, rfl⟩
  · intro newId inp hbad
    rw [newRideRequest]
    split
    · exact ⟨_, rfl⟩
    · split
      · exact ⟨_, rfl⟩
      · split
        · exact ⟨_, rfl⟩
        · exfalso
          rename_i hall hcost hdist
          rw [not_not] at hall
          obtain ⟨_, _, hdistT, hcostT, hpick, hdrop⟩ := hall
          rcases hbad with h | h | h | h | h
          · rw [h] at hpick; cases hpick
          · rw [h] at hdrop; cases hdrop
          · rw [h] at hcostT; cases hcostT
          · exact hcost h
          · exact hdist h

/-- Witness for C4: a fully valid input yields a pending driverless
request, and the same input with cost 0 is rejected. -/
theorem newRideRequest_validates_witness :
    (∃ row, newRideRequest "id1" (sampleInput (some 1500)) = .ok row ∧
      row.status = "pending" ∧ row.driverId = none) ∧
    ∃ msg, newRideRequest "id1" (sampleInput (some 0)) = .error msg :=
  ⟨⟨_, rfl,
    newRideRequest_validates.1 "id1" (sampleInput (some 1500)) _ rfl⟩,
   newRideRequest_validates.2 "id1" (sampleInput (some 0)) (by decide)⟩

/-- C4 counterexample: the `newRideRequest` handler of src/index.js
lines 447-479, given a payload with NO fare, pickup or dropoff, raises no
ValidationError: it creates the request anyway, substituting fare 25 and
the hard-coded Downtown/Airport locations (coordinates in 10⁻⁵ degrees),
refuting "fails with ValidationError — creating no RideRequest — whenever
pickup, dropoff, or fare is missing". -/
theorem newRideRequestLegacy_accepts_missing_fare :
    newRideRequestLegacy "id1" emptyInput =
      { id := "id1", riderId := "u1", driverId := none,
        status := "pending", fare := 25, ridetype := none,
        pickup := { lat := 3778825, lng := -12243240,
                    address := "Downtown" },
        dropoff := { lat := 3762130, lng := -12237900,
                     address := "Airport" },
        cancellationReason := none } := by decide

/-- C3 (amended): `confirmRide` succeeds only when the request's status is
`accepted` and its stored driverId equals the caller's, in which case it
sets the request's status to `confirmed` (no separate Ride record is
created); when no row satisfies that precondition — a driverId mismatch
and a wrong status alike — it fails with the single generic error
"Ride not available or not assigned" and leaves the table unchanged. -/
theorem confirmRide_requires_accepted_and_match :
    (∀ (db : List RideReqRow) (d q : String) (db' : List RideReqRow)
        (row : RideReqRow),
        confirmRide db d q = (db', ReqOutcome.ok row) →
        (∃ r ∈ db, r.id = q ∧ r.status = "accepted" ∧
          r.driverId = some d) ∧ row.status = "confirmed") ∧
    (∀ (db : List RideReqRow) (d q : String),
        (∀ r ∈ db, ¬ (r.id = q ∧ r.status = "accepted" ∧
          r.driverId = some d)) →
        confirmRide db d q =
          (db, .err "Ride not available or not assigned")) := by
  constructor
  · intro db d q db' row h
    rw [confirmRide] at h
    split at h
    · rename_i r heq
      rw [Prod.mk.injEq] at h
      obtain ⟨-, hrow⟩ := h
      rw [ReqOutcome.ok.injEq] at hrow
      have hmem : r ∈ db.filter (fun r => decide (r.id = q ∧
          r.status = "accepted" ∧ r.driverId = some d)) :=
        heq.symm ▸ List.mem_singleton.mpr rfl
      have hpred := List.mem_filter.mp hmem
      rw [decide_eq_true_eq] at hpred
      exact ⟨⟨r, hpred.1, hpred.2⟩, hrow ▸ rfl⟩
    · simp at h
    · simp at h
  · intro db d q hnone
    have hnil : db.filter (fun r => decide (r.id = q ∧
        r.status = "accepted" ∧ r.driverId = some d)) = [] := by
      rw [List.filter_eq_nil_iff]
      intro r hr
      simp only [decide_eq_true_eq]
      exact hnone r hr
    rw [confirmRide, hnil]

/-- Witness for C3 on a one-row table: confirming the accepted request as
its assigned driver succeeds with status confirmed, and confirming a
pending request fails with the generic error. -/
theorem confirmRide_requires_accepted_and_match_witness :
    (∃ db' row, confirmRide [sampleReq "accepted" (some "d1")] "d1" "r1" =
        (db', ReqOutcome.ok row) ∧
      (∃ r ∈ [sampleReq "accepted" (some "d1")], r.id = "r1" ∧
        r.status = "accepted" ∧ r.driverId = some "d1") ∧
      row.status = "confirmed") ∧
    confirmRide [sampleReq "pending" none] "d1" "r1" =
      ([sampleReq "pending" none],
        .err "Ride not available or not assigned") :=
  ⟨⟨_, _, rfl, confirmRide_requires_accepted_and_match.1 _ "d1" "r1" _ _
      rfl⟩,
   confirmRide_requires_accepted_and_match.2 _ "d1" "r1" (by decide)⟩

/-- C3 counterexample: the code issues the SAME generic error for a
driverId mismatch (request accepted by d1, confirm attempted by d2) as for
a wrong state (request still pending): there is no distinguished
`NotAuthorized` versus `InvalidState` failure, refuting that part of the
claim. -/
theorem confirmRide_generic_error_counterexample :
    (confirmRide [sampleReq "accepted" (some "d1")] "d2" "r1").2 =
      .err "Ride not available or not assigned" ∧
    (confirmRide [sampleReq "pending" none] "d2" "r1").2 =
      .err "Ride not available or not assigned" ∧
    (confirmRide [sampleReq "accepted" (some "d1")] "d2" "r1").2 =
      (confirmRide [sampleReq "pending" none] "d2" "r1").2 := by decide

/-- C5 (amended): the `cancelRide` handler of src/index.js, acting on the
`rides` table, refuses to cancel a ride already in a terminal status: when
every row carrying the ride's id is `declined`/`canceled`/`completed`, it
reports "Ride not found or not cancellable" and the table is unchanged.
(The part_001 `declineRide`/`cancelRide` handlers on `ride_requests`
instead update unconditionally by id; see the counterexample.) -/
theorem cancelRideIndexJs_terminal_rejected :
    ∀ (db : List RideRow) (rideId userId : String),
      rideId ≠ "" → userId ≠ "" →
      (∀ r ∈ db, r.id = rideId →
        r.status = "declined" ∨ r.status = "canceled" ∨
        r.status = "completed") →
      cancelRideIndexJs db (some rideId) (some userId) =
        (db, .error "Ride not found or not cancellable") := by
  intro db rideId userId h1 h2 hterm
  have hcond : ¬ (¬ truthyS (some rideId) ∨ ¬ truthyS (some userId)) := by
    rw [not_or, not_not, not_not]
    exact ⟨by simp [truthyS, h1], by simp [truthyS, h2]⟩
  have hnil : db.filter (fun r => decide (r.id = rideId ∧
      r.riderId = userId ∧
      (r.status = "requested" ∨ r.status = "accepted" ∨
        r.status = "in-progress"))) = [] := by
    rw [List.filter_eq_nil_iff]
    intro r hr
    simp only [decide_eq_true_eq]
    rintro ⟨hid, -, hst⟩
    rcases hterm r hr hid with h | h | h <;>
      rcases hst with h' | h' | h' <;> rw [h] at h' <;>
      exact absurd h' (by decide)
  rw [cancelRideIndexJs, if_neg hcond]
  simp only [Option.getD_some]
  rw [hnil]

/-- Witness for C5: cancelling a completed ride at a one-row table fails
and leaves the row untouched. -/
theorem cancelRideIndexJs_terminal_rejected_witness :
    (("r1" : String) ≠ "" ∧ ("u1" : String) ≠ "" ∧
      ∀ r ∈ [sampleRide "completed"], r.id = "r1" →
        r.status = "declined" ∨ r.status = "canceled" ∨
        r.status = "completed") ∧
    cancelRideIndexJs [sampleRide "completed"] (some "r1") (some "u1") =
      ([sampleRide "completed"],
        .error "Ride not found or not cancellable") :=
  ⟨⟨by decide, by decide, by decide⟩,
   cancelRideIndexJs_terminal_rejected _ "r1" "u1" (by decide) (by decide)
     (by decide)⟩

/-- C5 counterexample: the `declineRide` handler of src/unnamed/part_001
applied to a request that is already `canceled` (a terminal status) does
NOT fail with InvalidState: its unguarded `UPDATE ... WHERE id` succeeds
and overwrites the stored status to `declined`. -/
theorem declineRide_overwrites_canceled :
    declineRide [sampleReq "canceled" (some "d1")] (some "d2") (some "r1") =
      .ok [sampleReq "declined" (some "d1")] := rfl

/-- Pointwise relation between a table and itself. -/
theorem forall₂_self {α : Type} (R : α → α → Prop) (l : List α)
    (h : ∀ a ∈ l, R a a) : List.Forall₂ R l l :=
  List.forall₂_same.mpr h

/-- Pointwise relation between a table and its image under a row map. -/
theorem forall₂_map_self {α : Type} (R : α → α → Prop) (f : α → α)
    (l : List α) (h : ∀ a ∈ l, R a (f a)) : List.Forall₂ R l (l.map f) := by
  rw [List.forall₂_map_right_iff]
  exact List.forall₂_same.mpr h

/-- C6 (amended): across every ride_requests mutation of
src/unnamed/part_001, a row's driverId is only ever written while the
row's status is still `pending` (each writing update is conditioned on
`status = 'pending'`); and the `acceptRide` update in particular writes it
atomically with the `pending → accepted` transition, recording the
accepting driver. (The claim's stronger "exactly once, with the
pending → accepted transition" fails through `tripUpdate`, which writes
driverId together with an arbitrary client-supplied status; see the
counterexample.) -/
theorem driverId_written_only_when_pending :
    (∀ (op : ReqOp) (db : List RideReqRow),
        List.Forall₂
          (fun r r' => r'.driverId ≠ r.driverId → r.status = "pending")
          db (applyOp db op)) ∧
    (∀ (db : List RideReqRow) (d q : String),
        List.Forall₂
          (fun r r' => r'.driverId ≠ r.driverId →
            r.status = "pending" ∧ r'.status = "accepted" ∧
            r'.driverId = some d)
          db (acceptRideSeq db d q).1) := by
  have haccept : ∀ (db : List RideReqRow) (d q : String),
      List.Forall₂
        (fun r r' => r'.driverId ≠ r.driverId →
          r.status = "pending" ∧ r'.status = "accepted" ∧
          r'.driverId = some d)
        db (acceptRideSeq db d q).1 := by
    intro db d q
    rw [acceptRideSeq]
    split
    · apply forall₂_map_self
      intro a _
      by_cases hc : a.id = q ∧ a.status = "pending"
      · rw [if_pos hc]
        exact fun _ => ⟨hc.2, rfl, rfl⟩
      · rw [if_neg hc]
        exact fun hne => absurd rfl hne
    · apply forall₂_self
      intro a ha hne
      exact absurd rfl hne
    · apply forall₂_self
      intro a ha hne
      exact absurd rfl hne
  refine ⟨fun op db => ?_, haccept⟩
  cases op with
  | accept d q =>
      exact (haccept db d q).imp (fun a b h hne => (h hne).1)
  | confirm d q =>
      show List.Forall₂ _ db (confirmRide db d q).1
      rw [confirmRide]
      split
      · apply forall₂_map_self
        intro a _
        by_cases hc : a.id = q ∧ a.status = "accepted"
        · rw [if_pos hc]
          exact fun hne => absurd rfl hne
        · rw [if_neg hc]
          exact fun hne => absurd rfl hne
      · apply forall₂_self
        intro a ha hne
        exact absurd rfl hne
      · apply forall₂_self
        intro a ha hne
        exact absurd rfl hne
  | decline d q =>
      show List.Forall₂ _ db
        (match declineRide db d q with
         | .ok db' => db'
         | .error _ => db)
      rw [declineRide]
      by_cases hv : ¬ truthyS d = true ∨ ¬ truthyS q = true
      · rw [if_pos hv]
        apply forall₂_self
        intro a ha hne
        exact absurd rfl hne
      · rw [if_neg hv]
        apply forall₂_map_self
        intro a _
        by_cases hc : a.id = q.getD ""
        · rw [if_pos hc]
          exact fun hne => absurd rfl hne
        · rw [if_neg hc]
          exact fun hne => absurd rfl hne
  | cancel q reason =>
      show List.Forall₂ _ db (cancelRide db q reason)
      rw [cancelRide]
      apply forall₂_map_self
      intro a _
      by_cases hc : a.id = q
      · rw [if_pos hc]
        exact fun hne => absurd rfl hne
      · rw [if_neg hc]
        exact fun hne => absurd rfl hne
  | trip vs r d st =>
      show List.Forall₂ _ db (tripUpdate db vs r d st).1
      rw [tripUpdate]
      split
      · split
        · split
          · apply forall₂_self
            intro a ha hne
            exact absurd rfl hne
          · apply forall₂_map_self
            intro a _
            by_cases hc : a.riderId = r ∧ a.status = "pending"
            · rw [if_pos hc]
              exact fun _ => hc.2
            · rw [if_neg hc]
              exact fun hne => absurd rfl hne
        · apply forall₂_self
          intro a ha hne
          exact absurd rfl hne
      · apply forall₂_self
        intro a ha hne
        exact absurd rfl hne

/-- C6 counterexample: `tripUpdate` takes the new status from the client.
With the pending sample request (driverId null) and driver d1's active
matching vehicle, a `tripUpdate` carrying status `'canceled'` records
`driver_id = d1` atomically with a `pending → canceled` transition — the
driverId write is NOT tied to the `pending → accepted` transition the
claim asserts. -/
theorem tripUpdate_sets_driver_with_nonaccepted_status :
    (sampleReq "pending" none).driverId = none ∧
    (tripUpdate [sampleReq "pending" none] [sampleVehicle]
        "u1" "d1" "canceled").1 = [sampleReq "canceled" (some "d1")] := by
  decide

end DropMe
